import Mathlib

/-!
Verification of the authentication and authorization core of a FastAPI
boilerplate backend (src/core/security.py, src/api/v1/auth.py,
src/api/v1/users.py, src/api/dependencies/auth.py,
src/api/dependencies/pagination.py, src/repositories/user.py).

JWT payloads are embedded as association lists of claims; signing is
embedded symbolically (a signed token records its payload, the secret and
the algorithm it was signed with, and decoding succeeds exactly when the
secret and algorithm match and the exp claim, if present, has not passed).
The redis session cache is an association list from key strings to tokens.
-/

/-- A JSON claim value as used in the JWT payloads of this code base:
a string claim, or a numeric timestamp claim (exp, iat). -/
inductive JValue where
  | str (s : String)
  | time (t : Int)
deriving DecidableEq

/-- A JWT payload dict: association list from claim names to values. -/
abbrev JDict := List (String × JValue)

/-- Python dict lookup d.get(k): value of the first binding of k, if any. -/
def JDict.get (d : JDict) (k : String) : Option JValue :=
  (d.find? (fun p => p.1 == k)).map (fun p => p.2)

/-- Python dict update d[k] = v: k now maps to v, other keys unchanged. -/
def JDict.set (d : JDict) (k : String) (v : JValue) : JDict :=
  (k, v) :: d.filter (fun p => ! (p.1 == k))

/-- Python truthiness of a claim value: empty string and 0 are falsy. -/
def JValue.truthy : JValue → Bool
  | .str s => s ≠ ""
  | .time t => t ≠ 0

/-- Python str() of a claim value, as used by f-string interpolation. -/
def JValue.toStr : JValue → String
  | .str s => s
  | .time t => toString t

/-- The settings fields of src/core/config.py used by the token service. -/
structure Settings where
  secret_key : String
  algorithm : String
  access_token_expire_minutes : Int
  refresh_token_expire_days : Int
deriving DecidableEq

/-- A JWT as a value: either a token signed by jose jwt.encode, recording
the payload together with the secret and algorithm used, or a string that
is not a well-formed signed token.  Equality of signed tokens models
equality of the encoded strings (jose encoding is deterministic). -/
inductive Token where
  | signed (payload : JDict) (secret : String) (alg : String)
  | malformed (s : String)
deriving DecidableEq

/-- SecurityManager.create_access_token: copies data, then overwrites the
exp, iat and type claims; type is always set to the string access.  The
default expiry is now + access_token_expire_minutes minutes; a caller
supplied expires_delta (in seconds) replaces it. -/
def create_access_token (now : Int) (cfg : Settings) (data : JDict)
    (expires_delta : Option Int) : Token :=
  let expire : Int :=
    match expires_delta with
    | some d => now + d
    | none => now + cfg.access_token_expire_minutes * 60
  Token.signed
    (((data.set "exp" (.time expire)).set "iat" (.time now)).set "type" (.str "access"))
    cfg.secret_key cfg.algorithm

/-- SecurityManager.create_refresh_token: same shape, type is always set
to the string refresh, default expiry now + refresh_token_expire_days. -/
def create_refresh_token (now : Int) (cfg : Settings) (data : JDict)
    (expires_delta : Option Int) : Token :=
  let expire : Int :=
    match expires_delta with
    | some d => now + d
    | none => now + cfg.refresh_token_expire_days * 24 * 3600
  Token.signed
    (((data.set "exp" (.time expire)).set "iat" (.time now)).set "type" (.str "refresh"))
    cfg.secret_key cfg.algorithm

/-- SecurityManager.decode_token: jose jwt.decode with the configured
secret and algorithm; returns none (the JWTError branch) on a malformed
token, a secret or algorithm mismatch, a non-numeric exp claim, or an
expired token. -/
def decode_token (now : Int) (cfg : Settings) : Token → Option JDict
  | .malformed _ => none
  | .signed p secret alg =>
    if secret = cfg.secret_key ∧ alg = cfg.algorithm then
      match p.get "exp" with
      | some (.time e) => if e < now then none else some p
      | some (.str _) => none
      | none => some p
    else none

/-- SecurityManager.verify_token: decode, then require a truthy (nonempty)
payload whose type claim equals the expected token_type. -/
def verify_token (now : Int) (cfg : Settings) (tok : Token)
    (token_type : String) : Option JDict :=
  match decode_token now cfg tok with
  | some p => if p ≠ [] ∧ p.get "type" = some (.str token_type) then some p else none
  | none => none

/-- User roles from src/models/user.py. -/
inductive UserRole where
  | user
  | moderator
  | admin
  | super_admin
deriving DecidableEq

/-- The .value string of a UserRole (it is a str enum). -/
def UserRole.value : UserRole → String
  | .user => "user"
  | .moderator => "moderator"
  | .admin => "admin"
  | .super_admin => "super_admin"

/-- The User model fields consulted by the verified operations.  The id is
the str() form of the UUID primary key; profile and timestamp columns
(full_name, bio, created_at, updated_at, last_login_at) are not consulted
by any verified claim and are omitted. -/
structure User where
  id : String
  email : String
  username : String
  hashed_password : String
  is_active : Bool
  is_verified : Bool
  role : UserRole
deriving DecidableEq

/-- User.is_admin property: role in [ADMIN, SUPER_ADMIN]. -/
def User.is_admin (u : User) : Bool :=
  match u.role with
  | .admin => true
  | .super_admin => true
  | _ => false

/-- User.is_super_admin property: role == SUPER_ADMIN. -/
def User.is_super_admin (u : User) : Bool :=
  match u.role with
  | .super_admin => true
  | _ => false

/-- Model of the bcrypt primitive pwd_context.hash: an injective tagging
of the password (cryptographic soundness of the library is assumed, per
the spec, and not re-derived). -/
def hash_password (password : String) : String :=
  "bcrypt$" ++ password

/-- pwd_context.verify: the hash matches exactly the hash of the plain
password. -/
def verify_password (plain : String) (hashed : String) : Bool :=
  hashed == hash_password plain

/-- The HTTPException data raised by the handlers: status code and detail
message. -/
structure HTTPException where
  status : Nat
  detail : String
deriving DecidableEq

/-- Decidable equality on results, used by concrete evaluations. -/
instance {e a : Type} [DecidableEq e] [DecidableEq a] : DecidableEq (Except e a) := fun x y =>
  match x, y with
  | .ok v, .ok w =>
    if h : v = w then isTrue (congrArg Except.ok h)
    else isFalse (fun hc => h (Except.ok.inj hc))
  | .ok _, .error _ => isFalse (fun hc => Except.noConfusion hc)
  | .error _, .ok _ => isFalse (fun hc => Except.noConfusion hc)
  | .error v, .error w =>
    if h : v = w then isTrue (congrArg Except.error h)
    else isFalse (fun hc => h (Except.error.inj hc))

/-- SuccessResponse envelope (src/schemas/common.py): success flag and
message (the optional data dict is always omitted by the verified
handlers). -/
structure SuccessResponse where
  success : Bool
  message : String
deriving DecidableEq

/-- The redis session cache contents: association list from key strings
(such as refresh_token:<uid>) to stored tokens. -/
abbrev Cache := List (String × Token)

/-- redis_manager.get: the stored value for the key, if present. -/
def Cache.get (c : Cache) (k : String) : Option Token :=
  (c.find? (fun p => p.1 == k)).map (fun p => p.2)

/-- redis_manager.set: overwrite the binding of the key. -/
def Cache.set (c : Cache) (k : String) (v : Token) : Cache :=
  (k, v) :: c.filter (fun p => ! (p.1 == k))

/-- redis_manager.delete: drop the binding of the key. -/
def Cache.del (c : Cache) (k : String) : Cache :=
  c.filter (fun p => ! (p.1 == k))

/-- The user table: the rows of the users relation. -/
abbrev Db := List User

/-- Python str.lower for the ASCII identifiers of this code base, written
by structural recursion over the character list so that concrete
evaluations reduce. -/
def lowerStr (s : String) : String :=
  ⟨s.data.map Char.toLower⟩

/-- Characterwise helper for normalizeEmail: lowercase everything after
the first at sign. -/
def lowerAfterAt : List Char → List Char
  | [] => []
  | c :: cs => if c = '@' then c :: cs.map Char.toLower else c :: lowerAfterAt cs

/-- Model of pydantic EmailStr normalization (email-validator): the domain
part is lowercased, the local part is preserved. -/
def normalizeEmail (e : String) : String :=
  ⟨lowerAfterAt e.data⟩

/-- UserRepository.get_by_email: first row whose stored email equals the
lowercased query email. -/
def get_by_email (db : Db) (email : String) : Option User :=
  db.find? (fun u => u.email == lowerStr email)

/-- UserRepository.get_by_username: first row whose stored username equals
the lowercased query username. -/
def get_by_username (db : Db) (username : String) : Option User :=
  db.find? (fun u => u.username == lowerStr username)

/-- UserRepository.get_by_id: first row with the given id. -/
def get_by_id (db : Db) (uid : String) : Option User :=
  db.find? (fun u => u.id == uid)

/-- The register handler (src/api/v1/auth.py).  The input email has been
normalized by the EmailStr validator and the input username lowercased by
the schema validator; UserRepository.create stores both verbatim.  Returns
the created user and the new table, or the duplicate error. -/
def register (db : Db) (uid email username password : String) :
    Except HTTPException (User × Db) :=
  let email := normalizeEmail email
  let username := lowerStr username
  match get_by_email db email with
  | some _ => .error ⟨400, "Email already registered"⟩
  | none =>
    match get_by_username db username with
    | some _ => .error ⟨400, "Username already taken"⟩
    | none =>
      let u : User :=
        { id := uid, email := email, username := username,
          hashed_password := hash_password password,
          is_active := true, is_verified := false, role := .user }
      .ok (u, db ++ [u])

/-- The login handler: credential check, active check, token pair
issuance, and the session-cache write refresh_token:<uid> := refresh token
(the update_last_login write touches only the unmodeled last_login_at
column).  Returns the token pair response and the new cache. -/
def login (cfg : Settings) (now : Int) (db : Db) (cache : Cache)
    (email password : String) : Except HTTPException (Token × Token) × Cache :=
  match get_by_email db email with
  | none => (.error ⟨401, "Invalid email or password"⟩, cache)
  | some u =>
    if ¬ verify_password password u.hashed_password then
      (.error ⟨401, "Invalid email or password"⟩, cache)
    else if ¬ u.is_active then
      (.error ⟨403, "User account is inactive"⟩, cache)
    else
      let access := create_access_token now cfg
        [("sub", .str u.id), ("email", .str u.email)] none
      let refresh := create_refresh_token now cfg [("sub", .str u.id)] none
      (.ok (access, refresh), cache.set ("refresh_token:" ++ u.id) refresh)

/-- The refresh handler: verify the presented token as a refresh token,
extract a truthy sub claim, require the session-cache entry for that
subject to equal the presented token exactly, load an active user, then
issue a new pair and overwrite the cache entry. -/
def refresh_endpoint (cfg : Settings) (now : Int) (db : Db) (cache : Cache)
    (presented : Token) : Except HTTPException (Token × Token) × Cache :=
  match verify_token now cfg presented "refresh" with
  | none => (.error ⟨401, "Invalid refresh token"⟩, cache)
  | some payload =>
    match payload.get "sub" with
    | none => (.error ⟨401, "Invalid token payload"⟩, cache)
    | some v =>
      if ¬ v.truthy then (.error ⟨401, "Invalid token payload"⟩, cache)
      else
        if cache.get ("refresh_token:" ++ v.toStr) ≠ some presented then
          (.error ⟨401, "Invalid or expired refresh token"⟩, cache)
        else
          match get_by_id db v.toStr with
          | none => (.error ⟨404, "User not found or inactive"⟩, cache)
          | some u =>
            if ¬ u.is_active then
              (.error ⟨404, "User not found or inactive"⟩, cache)
            else
              let access := create_access_token now cfg
                [("sub", .str u.id), ("email", .str u.email)] none
              let refresh := create_refresh_token now cfg [("sub", .str u.id)] none
              (.ok (access, refresh), cache.set ("refresh_token:" ++ u.id) refresh)

/-- The logout handler: delete the session-cache entry of the
authenticated user and answer with the fixed success message. -/
def logout (cache : Cache) (current : User) : SuccessResponse × Cache :=
  (⟨true, "Successfully logged out"⟩, cache.del ("refresh_token:" ++ current.id))

/-- The request_password_reset handler: when a user with the (normalized)
email exists, issue a reset token via create_access_token with a
caller-supplied type claim of password_reset and a one hour expiry, and
store it under password_reset:<uid>; in every case answer with the same
fixed success message. -/
def request_password_reset (cfg : Settings) (now : Int) (db : Db)
    (cache : Cache) (email : String) : SuccessResponse × Cache :=
  match get_by_email db (normalizeEmail email) with
  | some u =>
    let reset := create_access_token now cfg
      [("sub", .str u.id), ("type", .str "password_reset")] (some 3600)
    (⟨true, "If the email exists, a password reset link has been sent"⟩,
      cache.set ("password_reset:" ++ u.id) reset)
  | none =>
    (⟨true, "If the email exists, a password reset link has been sent"⟩, cache)

/-- get_current_active_user dependency: require is_active. -/
def get_current_active_user (current : User) : Except HTTPException User :=
  if ¬ current.is_active then .error ⟨403, "User account is inactive"⟩
  else .ok current

/-- get_current_admin_user dependency: active user with is_admin. -/
def get_current_admin_user (current : User) : Except HTTPException User :=
  match get_current_active_user current with
  | .error e => .error e
  | .ok u =>
    if ¬ u.is_admin then .error ⟨403, "Admin privileges required"⟩
    else .ok u

/-- get_current_super_admin_user dependency: admin user with
is_super_admin. -/
def get_current_super_admin_user (current : User) : Except HTTPException User :=
  match get_current_admin_user current with
  | .error e => .error e
  | .ok u =>
    if ¬ u.is_super_admin then .error ⟨403, "Super admin privileges required"⟩
    else .ok u

/-- RoleChecker dependency: active user whose role is in the allowed
list; the forbidden detail names the allowed role values. -/
def role_checker (allowed : List UserRole) (current : User) :
    Except HTTPException User :=
  match get_current_active_user current with
  | .error e => .error e
  | .ok u =>
    if u.role ∉ allowed then
      .error ⟨403, "Required role: " ++ String.intercalate ", " (allowed.map UserRole.value)⟩
    else .ok u

/-- get_current_user_optional dependency: resolve the bearer token to an
active user or none, never raising.  The UUID constructor and the
repository lookup run inside a try block whose except clause returns
none; they are passed in as arguments (parse_uuid returns none where
UUID(s) raises ValueError, get_by_id_db returns an error value where the
repository raises). -/
def get_current_user_optional (cfg : Settings) (now : Int)
    (credentials : Option Token)
    (parse_uuid : String → Option String)
    (get_by_id_db : String → Except String (Option User)) :
    Except HTTPException (Option User) :=
  match credentials with
  | none => .ok none
  | some tok =>
    match verify_token now cfg tok "access" with
    | none => .ok none
    | some payload =>
      match payload.get "sub" with
      | none => .ok none
      | some v =>
        if ¬ v.truthy then .ok none
        else
          match v with
          | .time _ => .ok none
          | .str s =>
            match parse_uuid s with
            | none => .ok none
            | some uuid =>
              match get_by_id_db uuid with
              | .error _ => .ok none
              | .ok none => .ok none
              | .ok (some u) => if u.is_active then .ok (some u) else .ok none

/-- The admin-updatable fields (UserAdminUpdate schema); none means the
field was not set in the request (exclude_unset). -/
structure UserAdminUpdate where
  email : Option String := none
  username : Option String := none
  is_active : Option Bool := none
  is_verified : Option Bool := none
  role : Option UserRole := none
deriving DecidableEq

/-- UserRepository.update applied to the modeled columns: each set field
overwrites the stored value. -/
def applyAdminUpdate (u : User) (upd : UserAdminUpdate) : User :=
  { u with
    email := upd.email.getD u.email,
    username := upd.username.getD u.username,
    is_active := upd.is_active.getD u.is_active,
    is_verified := upd.is_verified.getD u.is_verified,
    role := upd.role.getD u.role }

/-- The admin_update_user handler: 404 on an unknown target; 403 when a
set-and-different role field is sent by a caller who is not a super
admin; 403 when the target is a super admin and the caller is not; else
apply the update.  The pair carries the resulting table, unchanged on
every error path. -/
def admin_update_user (db : Db) (current : User) (target_id : String)
    (upd : UserAdminUpdate) : Except HTTPException User × Db :=
  match get_by_id db target_id with
  | none => (.error ⟨404, "User not found"⟩, db)
  | some target =>
    if upd.role.isSome ∧ upd.role ≠ some target.role ∧ ¬ current.is_super_admin then
      (.error ⟨403, "Only super admins can change user roles"⟩, db)
    else if target.is_super_admin ∧ ¬ current.is_super_admin then
      (.error ⟨403, "Cannot modify super admin account"⟩, db)
    else
      let u2 := applyAdminUpdate target upd
      (.ok u2, db.map (fun v => if v.id == target_id then u2 else v))

/-- The admin_delete_user handler: 400 when the target id is the caller
id (checked first, before any lookup or delete), 404 on an unknown
target, else remove the row. -/
def admin_delete_user (db : Db) (current : User) (target_id : String) :
    Except HTTPException SuccessResponse × Db :=
  if target_id = current.id then
    (.error ⟨400, "Cannot delete your own account"⟩, db)
  else
    match get_by_id db target_id with
    | none => (.error ⟨404, "User not found"⟩, db)
    | some _ =>
      (.ok ⟨true, "User successfully deleted"⟩,
        db.filter (fun v => ! (v.id == target_id)))

/-- calculate_offset from src/api/dependencies/pagination.py. -/
def calculate_offset (page page_size : Int) : Int :=
  (page - 1) * page_size

/-- calculate_pages from src/api/dependencies/pagination.py; Python
floor division is Int.fdiv. -/
def calculate_pages (total page_size : Int) : Int :=
  if total > 0 then (total + page_size - 1).fdiv page_size else 0

/-- One session-affecting operation of the auth API, with its request
data. -/
inductive AuthOp where
  | loginOp (now : Int) (email password : String)
  | refreshOp (now : Int) (tok : Token)
  | logoutOp (current : User)

/-- The session-cache effect of one operation. -/
def authStep (cfg : Settings) (db : Db) (cache : Cache) : AuthOp → Cache
  | .loginOp now email password => (login cfg now db cache email password).2
  | .refreshOp now tok => (refresh_endpoint cfg now db cache tok).2
  | .logoutOp current => (logout cache current).2

/-- The session cache after a sequence of login, refresh and logout
operations. -/
def runOps (cfg : Settings) (db : Db) (cache : Cache) : List AuthOp → Cache
  | [] => cache
  | op :: ops => runOps cfg db (authStep cfg db cache op) ops

/-- The session-cache key the refresh handler derives from a presented
token: refresh_token:<sub claim>, defined when the token is signed and
carries a truthy sub. -/
def refreshCacheKeyOf : Token → Option String
  | .signed p _ _ =>
    match p.get "sub" with
    | some v => if v.truthy then some ("refresh_token:" ++ v.toStr) else none
    | none => none
  | .malformed _ => none

/-- The type claim carried by a token. -/
def Token.typeClaim : Token → Option JValue
  | .signed p _ _ => p.get "type"
  | .malformed _ => none

/-- A fixed settings object for concrete evaluations. -/
def cfg0 : Settings :=
  { secret_key := "secret", algorithm := "HS256",
    access_token_expire_minutes := 30, refresh_token_expire_days := 7 }

/-- A regular active user fixture. -/
def alice : User :=
  { id := "u1", email := "alice@example.com", username := "alice",
    hashed_password := hash_password "Aa1!aaaa",
    is_active := true, is_verified := true, role := .user }

/-- An admin (not super admin) fixture. -/
def adminUser : User :=
  { id := "u2", email := "root@example.com", username := "boss",
    hashed_password := hash_password "Bb2!bbbb",
    is_active := true, is_verified := true, role := .admin }

/-- A super admin fixture. -/
def superAdminUser : User :=
  { id := "u3", email := "super@example.com", username := "chief",
    hashed_password := hash_password "Cc3!cccc",
    is_active := true, is_verified := true, role := .super_admin }

/-- Alice as stored after registering with an uppercase letter in the
email local part, which EmailStr preserves and create stores verbatim. -/
def aliceMixedCase : User :=
  { alice with email := "Alice@example.com" }

/-- The user row created by the second registration in the C5 scenario. -/
def bobRow : User :=
  { id := "u9", email := "ALICE@example.com", username := "bob",
    hashed_password := hash_password "Zz9!zzzz",
    is_active := true, is_verified := false, role := .user }

/-- The refresh token issued for alice at time 0 under cfg0. -/
def rt0 : Token := create_refresh_token 0 cfg0 [("sub", .str "u1")] none

/-- A session cache holding rt0 as the current refresh token of alice. -/
def cacheA : Cache := [("refresh_token:u1", rt0)]

/-- The reset token built by the password-reset flow for alice at time 0
under cfg0. -/
def resetTok0 : Token :=
  create_access_token 0 cfg0 [("sub", .str "u1"), ("type", .str "password_reset")] (some 3600)

theorem JDict.get_set_self (d : JDict) (k : String) (v : JValue) :
    (d.set k v).get k = some v := by
  simp [JDict.get, JDict.set]

theorem decode_token_some_eq (now : Int) (cfg : Settings) (p q : JDict)
    (secret alg : String)
    (h : decode_token now cfg (.signed p secret alg) = some q) : q = p := by
  simp only [decode_token] at h
  repeat' split at h
  all_goals simp_all

theorem verify_token_signed_type_ne (now : Int) (cfg : Settings) (p : JDict)
    (secret alg s t : String)
    (h : p.get "type" = some (.str s)) (hne : s ≠ t) :
    verify_token now cfg (.signed p secret alg) t = none := by
  unfold verify_token
  cases hd : decode_token now cfg (.signed p secret alg) with
  | none => rfl
  | some q =>
    have hq : q = p := decode_token_some_eq now cfg p q secret alg hd
    show (if q ≠ [] ∧ q.get "type" = some (.str t) then some q else none) = none
    rw [if_neg]
    rintro ⟨-, hty⟩
    rw [hq, h] at hty
    exact hne (by injection hty with h2; injection h2)

/-- C1: for every payload data, settings and expiry (both at issuance and
at verification), a refresh token never verifies as an access token and
an access token never verifies as a refresh token: the type claim written
last by the issuing function differs from the expected type, so
verify_token returns none. -/
theorem c1_token_type_confusion_rejected (cfgI cfgV : Settings)
    (nowI nowV : Int) (data : JDict) (delta : Option Int) :
    verify_token nowV cfgV (create_refresh_token nowI cfgI data delta) "access" = none ∧
    verify_token nowV cfgV (create_access_token nowI cfgI data delta) "refresh" = none := by
  constructor
  · exact verify_token_signed_type_ne nowV cfgV _ _ _ "refresh" "access"
      (JDict.get_set_self _ _ _) (by decide)
  · exact verify_token_signed_type_ne nowV cfgV _ _ _ "access" "refresh"
      (JDict.get_set_self _ _ _) (by decide)

/-- C2 (code bug): the token issued by the password-reset request flow is
stored in the cache as resetTok0, whose type claim is the string access —
create_access_token overwrites the caller-supplied type password_reset —
so verifying it with expected type access succeeds (here at time 100,
within its one hour expiry) and verifying it with expected type
password_reset fails, the opposite of the claimed behaviour. -/
theorem c2_reset_token_is_access_typed :
    (request_password_reset cfg0 0 [alice] [] "alice@example.com").2.get "password_reset:u1"
        = some resetTok0
    ∧ resetTok0.typeClaim = some (.str "access")
    ∧ (verify_token 100 cfg0 resetTok0 "access").isSome = true
    ∧ verify_token 100 cfg0 resetTok0 "password_reset" = none := by
  refine ⟨by decide, by decide, by decide, by decide⟩

theorem Cache.get_del_self (c : Cache) (k : String) : (c.del k).get k = none := by
  induction c with
  | nil => rfl
  | cons hd tl ih =>
    by_cases h : hd.1 == k
    · simp [Cache.del, Cache.get, List.filter_cons, h] at ih ⊢
    · simp [Cache.del, Cache.get, List.filter_cons, List.find?_cons, h] at ih ⊢

theorem verify_token_some_shape (now : Int) (cfg : Settings) (t : Token)
    (ty : String) (p : JDict) (h : verify_token now cfg t ty = some p) :
    ∃ secret alg, t = .signed p secret alg ∧ p.get "type" = some (.str ty) := by
  cases t with
  | malformed s => simp [verify_token, decode_token] at h
  | signed q secret alg =>
    refine ⟨secret, alg, ?_⟩
    unfold verify_token at h
    cases hd : decode_token now cfg (.signed q secret alg) with
    | none => rw [hd] at h; simp at h
    | some q2 =>
      have hq : q2 = q := decode_token_some_eq now cfg q q2 secret alg hd
      rw [hd] at h
      have h2 : (if q2 ≠ [] ∧ q2.get "type" = some (.str ty) then some q2 else none) = some p := h
      split at h2
      · rename_i hcond
        cases h2
        exact ⟨by rw [hq], hcond.2⟩
      · simp at h2

theorem refresh_ok_cached (cfg : Settings) (now : Int) (db : Db)
    (cache : Cache) (t : Token)
    (h : ((refresh_endpoint cfg now db cache t).1).isOk = true) :
    ∃ k, refreshCacheKeyOf t = some k ∧ cache.get k = some t := by
  unfold refresh_endpoint at h
  split at h
  · simp [Except.isOk, Except.toBool] at h
  · rename_i payload hv
    obtain ⟨secret, alg, ht, hty⟩ := verify_token_some_shape now cfg t "refresh" payload hv
    split at h
    · simp [Except.isOk, Except.toBool] at h
    · rename_i v hs
      by_cases htr : v.truthy = true
      · by_cases hc : cache.get ("refresh_token:" ++ v.toStr) = some t
        · refine ⟨"refresh_token:" ++ v.toStr, ?_, hc⟩
          rw [ht]
          simp only [refreshCacheKeyOf, hs]
          rw [if_pos htr]
        · rw [if_neg (not_not_intro htr), if_pos hc] at h
          simp [Except.isOk, Except.toBool] at h
      · rw [if_pos htr] at h
        simp [Except.isOk, Except.toBool] at h

theorem refresh_mismatch_401 (cfg : Settings) (now : Int) (db : Db)
    (cache : Cache) (t : Token) (k : String)
    (hk : refreshCacheKeyOf t = some k) (hne : cache.get k ≠ some t) :
    ∃ e, (refresh_endpoint cfg now db cache t).1 = .error e ∧ e.status = 401 := by
  unfold refresh_endpoint
  cases hv : verify_token now cfg t "refresh" with
  | none => exact ⟨⟨401, "Invalid refresh token"⟩, rfl, rfl⟩
  | some payload =>
    obtain ⟨secret, alg, ht, hty⟩ :=
      verify_token_some_shape now cfg t "refresh" payload hv
    rw [ht] at hk
    simp only [refreshCacheKeyOf] at hk
    cases hs : payload.get "sub" with
    | none => rw [hs] at hk; exact absurd hk (by simp)
    | some v =>
      rw [hs] at hk
      have hk2 : (if v.truthy = true then some ("refresh_token:" ++ v.toStr) else none)
          = some k := hk
      by_cases htr : v.truthy = true
      · rw [if_pos htr] at hk2
        have hkk : k = "refresh_token:" ++ v.toStr := by
          injection hk2 with h2
          exact h2.symm
        simp only [hs]
        rw [if_neg (not_not_intro htr), if_pos (hkk ▸ hne)]
        exact ⟨⟨401, "Invalid or expired refresh token"⟩, rfl, rfl⟩
      · rw [if_neg htr] at hk2
        exact absurd hk2 (by simp)

theorem runOps_append (cfg : Settings) (db : Db) (c : Cache)
    (ops : List AuthOp) (op : AuthOp) :
    runOps cfg db c (ops ++ [op]) = authStep cfg db (runOps cfg db c ops) op := by
  induction ops generalizing c with
  | nil => rfl
  | cons o os ih =>
    simp only [List.cons_append, runOps]
    exact ih _

/-- C3: over every sequence of login, refresh and logout operations
applied to any starting cache, the refresh endpoint succeeds only when
the presented refresh token equals the value the session cache currently
stores under the key derived from its subject; whenever the cached value
differs or is absent the endpoint rejects with 401; and after a sequence
ending in a logout of a user, any token for that user is rejected. -/
theorem c3_single_active_refresh_token (cfg : Settings) (db : Db)
    (c : Cache) (ops : List AuthOp) (now : Int) (t : Token) :
    (((refresh_endpoint cfg now db (runOps cfg db c ops) t).1).isOk = true →
      ∃ k, refreshCacheKeyOf t = some k ∧ (runOps cfg db c ops).get k = some t)
    ∧ (∀ k, refreshCacheKeyOf t = some k →
        (runOps cfg db c ops).get k ≠ some t →
        ∃ e, (refresh_endpoint cfg now db (runOps cfg db c ops) t).1 = .error e ∧
          e.status = 401)
    ∧ (∀ u : User, refreshCacheKeyOf t = some ("refresh_token:" ++ u.id) →
        ((refresh_endpoint cfg now db
            (runOps cfg db c (ops ++ [.logoutOp u])) t).1).isOk = false) := by
  refine ⟨refresh_ok_cached cfg now db _ t,
    fun k hk hne => refresh_mismatch_401 cfg now db _ t k hk hne,
    fun u hk => ?_⟩
  rw [runOps_append]
  have hnone : (authStep cfg db (runOps cfg db c ops) (.logoutOp u)).get
      ("refresh_token:" ++ u.id) = none := Cache.get_del_self _ _
  obtain ⟨e, he, -⟩ := refresh_mismatch_401 cfg now db
    (authStep cfg db (runOps cfg db c ops) (.logoutOp u)) t _ hk
    (by rw [hnone]; simp)
  rw [he]
  rfl

theorem c3_witness : ∃ e,
    (refresh_endpoint cfg0 10 [alice] (runOps cfg0 [alice] [] []) rt0).1
      = Except.error e ∧ e.status = 401 :=
  (c3_single_active_refresh_token cfg0 [alice] [] [] 10 rt0).2.1
    "refresh_token:u1" (by decide) (by decide)

/-- C4 counterexample: a refresh request whose token verifies as a valid
refresh token for subject u1 and matches the cached value, but whose
subject has no row in the user table, fails with status 404, not 401. -/
theorem c4_counterexample_refresh_404 :
    (refresh_endpoint cfg0 10 [] cacheA rt0).1
      = Except.error ⟨404, "User not found or inactive"⟩ := by
  decide

/-- C4 amended: every failure of the refresh endpoint carries status 401,
except that a token which verifies and matches the cache while its
subject is missing from the user table or inactive fails with status 404
and detail User not found or inactive. -/
theorem c4_refresh_failure_status (cfg : Settings) (now : Int) (db : Db)
    (cache : Cache) (t : Token) (e : HTTPException)
    (h : (refresh_endpoint cfg now db cache t).1 = .error e) :
    e.status = 401 ∨ (e.status = 404 ∧ e.detail = "User not found or inactive") := by
  unfold refresh_endpoint at h
  repeat' split at h
  all_goals simp_all
  all_goals simp [← h]

theorem c4_witness :
    (refresh_endpoint cfg0 10 [] cacheA rt0).1
        = Except.error { status := 404, detail := "User not found or inactive" }
    ∧ ((404 : Nat) = 401 ∨ ((404 : Nat) = 404 ∧
        "User not found or inactive" = "User not found or inactive")) :=
  ⟨by decide,
c4_refresh_failure_status cfg0 10 [] cacheA rt0
      ⟨404, "User not found or inactive"⟩ (by decide)⟩

/-- C5 (code bug): with alice stored under the email Alice@example.com
(mixed case preserved by EmailStr and stored verbatim by create), a new
registration of the same address in different casing passes the
duplicate-email check — which compares stored emails against the
lowercased query only — and creates a second user whose email equals the
stored one up to letter case. -/
theorem c5_duplicate_email_check_misses_mixed_case :
    register [aliceMixedCase] "u9" "ALICE@example.com" "bob" "Zz9!zzzz"
        = .ok (bobRow, [aliceMixedCase, bobRow])
    ∧ lowerStr aliceMixedCase.email = lowerStr bobRow.email := by
  exact ⟨by decide, by decide⟩

/-- C6: for every active user whose role is neither admin nor
super_admin, the gate of the admin-only endpoints (get_current_admin_user,
used by GET /users) rejects with a 403 whose detail names the admin
requirement, and the generic role gate (RoleChecker, require_admin)
rejects with a 403 naming the allowed roles admin and super_admin; for
every active super_admin both gates accept the user. -/
theorem c6_admin_gate_role_check (u : User) (hactive : u.is_active = true) :
    (u.role ≠ .admin → u.role ≠ .super_admin →
      get_current_admin_user u = .error ⟨403, "Admin privileges required"⟩
      ∧ role_checker [.admin, .super_admin] u
          = .error ⟨403, "Required role: admin, super_admin"⟩)
    ∧ (u.role = .super_admin →
      get_current_admin_user u = .ok u
      ∧ role_checker [.admin, .super_admin] u = .ok u) := by
  constructor
  · intro h1 h2
    have hadm : u.is_admin = false := by
      cases hr : u.role <;> simp_all [User.is_admin]
    constructor
    · simp [get_current_admin_user, get_current_active_user, hactive, hadm]
    · simp [role_checker, get_current_active_user, hactive, h1, h2]
      rfl
  · intro h3
    have hadm : u.is_admin = true := by
      simp [User.is_admin, h3]
    constructor
    · simp [get_current_admin_user, get_current_active_user, hactive, hadm]
    · simp [role_checker, get_current_active_user, hactive, h3]

theorem c6_witness :
    (get_current_admin_user alice = Except.error ⟨403, "Admin privileges required"⟩
      ∧ role_checker [.admin, .super_admin] alice
          = Except.error ⟨403, "Required role: admin, super_admin"⟩)
    ∧ (get_current_admin_user superAdminUser = Except.ok superAdminUser
      ∧ role_checker [.admin, .super_admin] superAdminUser = Except.ok superAdminUser) :=
  ⟨(c6_admin_gate_role_check alice (by decide)).1 (by decide) (by decide),
   (c6_admin_gate_role_check superAdminUser (by decide)).2 (by decide)⟩

/-- C7: admin-path business rules.  For an admin caller who is not a
super admin, an update whose target is a super admin, or one that sets a
role different from the target role, fails with a 403 and returns the
table unchanged; and a delete whose target id is the caller id fails with
a 400 and returns the table unchanged. -/
theorem c7_admin_business_rules (db : Db) (current target : User)
    (tid : String) (upd : UserAdminUpdate)
    (_hadmin : current.is_admin = true) (hns : current.is_super_admin = false) :
    (get_by_id db tid = some target → target.is_super_admin = true →
      ∃ e, admin_update_user db current tid upd = (.error e, db) ∧ e.status = 403)
    ∧ (∀ r, get_by_id db tid = some target → upd.role = some r → r ≠ target.role →
      admin_update_user db current tid upd
        = (.error ⟨403, "Only super admins can change user roles"⟩, db))
    ∧ (∀ caller : User, caller.is_super_admin = true →
      admin_delete_user db caller caller.id
        = (.error ⟨400, "Cannot delete your own account"⟩, db)) := by
  refine ⟨?_, ?_, ?_⟩
  · intro hfind hsup
    unfold admin_update_user
    simp only [hfind]
    by_cases hrc : upd.role.isSome ∧ upd.role ≠ some target.role ∧
        ¬ current.is_super_admin = true
    · rw [if_pos hrc]
      exact ⟨⟨403, "Only super admins can change user roles"⟩, rfl, rfl⟩
    · rw [if_neg hrc, if_pos ⟨hsup, by simp [hns]⟩]
      exact ⟨⟨403, "Cannot modify super admin account"⟩, rfl, rfl⟩
  · intro r hfind hr hrne
    unfold admin_update_user
    simp only [hfind]
    rw [if_pos ⟨by simp [hr], by simp [hr, hrne], by simp [hns]⟩]
  · intro caller hsup
    unfold admin_delete_user
    rw [if_pos rfl]

theorem c7_witness :
    (∃ e, admin_update_user [superAdminUser] adminUser "u3" {}
        = (.error e, [superAdminUser]) ∧ e.status = 403)
    ∧ admin_delete_user [superAdminUser] superAdminUser superAdminUser.id
        = (.error ⟨400, "Cannot delete your own account"⟩, [superAdminUser]) :=
  ⟨(c7_admin_business_rules [superAdminUser] adminUser superAdminUser "u3" {}
      (by decide) (by decide)).1 (by decide) (by decide),
   (c7_admin_business_rules [superAdminUser] adminUser superAdminUser "u3" {}
      (by decide) (by decide)).2.2 superAdminUser (by decide)⟩

/-- C8: the password-reset request handler answers with one fixed
success response; the observable response is the same for every database
state and request email, whether or not a matching user exists. -/
theorem c8_password_reset_response_constant (cfg cfg2 : Settings)
    (now now2 : Int) (db db2 : Db) (cache cache2 : Cache)
    (email email2 : String) :
    (request_password_reset cfg now db cache email).1
      = ⟨true, "If the email exists, a password reset link has been sent"⟩
    ∧ (request_password_reset cfg now db cache email).1
      = (request_password_reset cfg2 now2 db2 cache2 email2).1 := by
  have key : ∀ (cfg3 : Settings) (now3 : Int) (db3 : Db) (cache3 : Cache)
      (email3 : String), (request_password_reset cfg3 now3 db3 cache3 email3).1
        = ⟨true, "If the email exists, a password reset link has been sent"⟩ := by
    intro cfg3 now3 db3 cache3 email3
    unfold request_password_reset
    split <;> rfl
  exact ⟨key cfg now db cache email,
    (key cfg now db cache email).trans (key cfg2 now2 db2 cache2 email2).symm⟩

/-- C9: for total >= 0 and page_size >= 1, calculate_pages is the ceiling
of total / page_size (0 when total = 0), and for page >= 1,
calculate_offset equals (page - 1) * page_size and is nonnegative. -/
theorem c9_pagination_arithmetic (total page_size page : Int)
    (htotal : 0 ≤ total) (hps : 1 ≤ page_size) (hpage : 1 ≤ page) :
    calculate_pages total page_size = ⌈(total : ℚ) / (page_size : ℚ)⌉
    ∧ (total = 0 → calculate_pages total page_size = 0)
    ∧ calculate_offset page page_size = (page - 1) * page_size
    ∧ 0 ≤ calculate_offset page page_size := by
  have hps0 : (0 : ℤ) < page_size := by omega
  have hpsQ : (0 : ℚ) < (page_size : ℚ) := by exact_mod_cast hps0
  refine ⟨?_, ?_, rfl, ?_⟩
  · by_cases ht : 0 < total
    · unfold calculate_pages
      rw [if_pos ht, Int.fdiv_eq_ediv _ (by omega)]
      have hmod := Int.ediv_add_emod (total + page_size - 1) page_size
      have hmn := Int.emod_nonneg (total + page_size - 1)
        (by omega : page_size ≠ 0)
      have hml := Int.emod_lt_of_pos (total + page_size - 1) hps0
      set q := (total + page_size - 1) / page_size with hq
      have h1 : total ≤ page_size * q := by omega
      have h2 : page_size * (q - 1) < total := by
        have hx : page_size * (q - 1) = page_size * q - page_size := by ring
        omega
      rw [eq_comm, Int.ceil_eq_iff]
      constructor
      · rw [lt_div_iff₀ hpsQ]
        calc ((q : ℚ) - 1) * (page_size : ℚ)
            = ((page_size * (q - 1) : ℤ) : ℚ) := by push_cast; ring
          _ < (total : ℚ) := by exact_mod_cast h2
      · rw [div_le_iff₀ hpsQ]
        calc (total : ℚ) ≤ ((page_size * q : ℤ) : ℚ) := by exact_mod_cast h1
          _ = (q : ℚ) * (page_size : ℚ) := by push_cast; ring
    · have ht0 : total = 0 := by omega
      subst ht0
      simp [calculate_pages]
  · intro h
    simp [calculate_pages, h]
  · exact mul_nonneg (by omega) (by omega)

theorem c9_witness :
    calculate_pages 5 2 = ⌈((5 : Int) : ℚ) / ((2 : Int) : ℚ)⌉
    ∧ ((5 : Int) = 0 → calculate_pages 5 2 = 0)
    ∧ calculate_offset 3 2 = (3 - 1) * 2
    ∧ 0 ≤ calculate_offset 3 2 :=
  c9_pagination_arithmetic 5 2 3 (by decide) (by decide) (by decide)

/-- C10: the optional-authentication resolver is total: on every input it
returns an ok result (never an HTTP error); absent credentials, a token
that does not verify as an access token, and every other failing stage
yield ok none; and whenever it returns a user, that user is active. -/
theorem c10_optional_auth_total (cfg : Settings) (now : Int)
    (credentials : Option Token)
    (parse_uuid : String → Option String)
    (get_by_id_db : String → Except String (Option User)) :
    ((get_current_user_optional cfg now credentials parse_uuid get_by_id_db).isOk = true)
    ∧ (credentials = none →
      get_current_user_optional cfg now credentials parse_uuid get_by_id_db = .ok none)
    ∧ (∀ t, credentials = some t → verify_token now cfg t "access" = none →
      get_current_user_optional cfg now credentials parse_uuid get_by_id_db = .ok none)
    ∧ (∀ u, get_current_user_optional cfg now credentials parse_uuid get_by_id_db
        = .ok (some u) → u.is_active = true) := by
  refine ⟨?_, ?_, ?_, ?_⟩
  · unfold get_current_user_optional
    repeat' split
    all_goals rfl
  · intro h
    subst h
    rfl
  · intro t hc hv
    subst hc
    simp only [get_current_user_optional, hv]
  · intro u h
    unfold get_current_user_optional at h
    repeat' split at h
    all_goals simp_all

theorem c10_witness :
    get_current_user_optional cfg0 0 none (fun _ => none) (fun _ => Except.ok none)
      = Except.ok none :=
  (c10_optional_auth_total cfg0 0 none (fun _ => none)
    (fun _ => Except.ok none)).2.1 rfl
